import Mathlib

/-!
Verification of the Perplexity enrichment flow of `playground-map`
(`fetchPerplexityInsights` and `fetchPerplexityInsightsWithCache`).

The two functions are embedded as pure Lean functions over an explicit
environment holding the pieces of ambient state the TypeScript code reads:
the abort signal, the `PERPLEXITY_API_KEY` environment variable, the HTTP
response the single outbound `fetch` would produce, and the cache contents.
Each function returns its result (`Except` for a thrown error, `Option` for
the `null` fast-exit) together with a trace of the side effects performed
(network calls, cache reads, cache writes).

`JSON.parse` is embedded as an executable JSON parser, and the two regular
expressions on lines 94-95 of the source are embedded as scanning functions
whose behaviour is derived from JavaScript regex backtracking semantics
(leftmost match; greedy/lazy quantifier order), documented at each
definition.
-/

/-! ## Characters and whitespace -/

/-- The backtick character, written by code point to keep it out of the
source text. -/
def backtickChar : Char := Char.ofNat 96

/-- The opening-brace character `\x7b`. -/
def lbraceChar : Char := Char.ofNat 123

/-- The closing-brace character `\x7d`. -/
def rbraceChar : Char := Char.ofNat 125

/-- Whitespace as matched by the JavaScript regex class `\s`
(ASCII portion: space, tab, LF, VT, FF, CR; the Unicode whitespace
code points cannot occur in any input considered here). -/
def isRegexWs (c : Char) : Bool :=
  c = ' ' || c = '\t' || c = '\n' || c = Char.ofNat 11 || c = Char.ofNat 12 || c = '\r'

/-- Whitespace accepted between tokens by `JSON.parse`
(RFC 8259: space, tab, LF, CR). -/
def isJsonWs (c : Char) : Bool :=
  c = ' ' || c = '\t' || c = '\n' || c = '\r'

/-- Drop leading JSON whitespace. -/
def skipJsonWs (cs : List Char) : List Char := cs.dropWhile isJsonWs

/-- Trim `\s`-whitespace from both ends of a character list (the effect of
the greedy `\s*` bounds around the lazy capture group in the fenced-block
regex). -/
def trimRegexWs (cs : List Char) : List Char :=
  ((cs.dropWhile isRegexWs).reverse.dropWhile isRegexWs).reverse

/-! ## JSON values (the result of `JSON.parse`) -/

/-- A JSON value. Numbers keep their source lexeme: no claim depends on
numeric value semantics, only on parse success and structure. -/
inductive Json where
  | null : Json
  | bool (b : Bool) : Json
  | num (lexeme : String) : Json
  | str (s : String) : Json
  | arr (elems : List Json) : Json
  | obj (fields : List (String × Json)) : Json
deriving Repr

/-! ## JSON parser (embedding of `JSON.parse`) -/

/-- Value of a hexadecimal digit, for `\u` escapes. -/
def hexDigitVal (c : Char) : Option Nat :=
  if '0' ≤ c ∧ c ≤ '9' then some (c.toNat - 48)
  else if 'a' ≤ c ∧ c ≤ 'f' then some (c.toNat - 87)
  else if 'A' ≤ c ∧ c ≤ 'F' then some (c.toNat - 55)
  else none

/-- Parse the body of a JSON string after the opening quote, handling the
escape sequences `JSON.parse` accepts; returns the decoded string and the
characters after the closing quote. -/
def parseStringBody (acc : List Char) : List Char → Option (String × List Char)
  | [] => none
  | c :: rest =>
    if c = '"' then some (String.mk acc.reverse, rest)
    else if c = '\\' then
      match rest with
      | [] => none
      | e :: rest2 =>
        if e = '"' then parseStringBody ('"' :: acc) rest2
        else if e = '\\' then parseStringBody ('\\' :: acc) rest2
        else if e = '/' then parseStringBody ('/' :: acc) rest2
        else if e = 'b' then parseStringBody (Char.ofNat 8 :: acc) rest2
        else if e = 'f' then parseStringBody (Char.ofNat 12 :: acc) rest2
        else if e = 'n' then parseStringBody ('\n' :: acc) rest2
        else if e = 'r' then parseStringBody ('\r' :: acc) rest2
        else if e = 't' then parseStringBody ('\t' :: acc) rest2
        else if e = 'u' then
          match rest2 with
          | h1 :: h2 :: h3 :: h4 :: rest3 =>
            match hexDigitVal h1, hexDigitVal h2, hexDigitVal h3, hexDigitVal h4 with
            | some v1, some v2, some v3, some v4 =>
              parseStringBody (Char.ofNat (v1 * 4096 + v2 * 256 + v3 * 16 + v4) :: acc) rest3
            | _, _, _, _ => none
          | _ => none
        else none
    else if c.toNat < 32 then none
    else parseStringBody (c :: acc) rest

/-- Split off the longest run of decimal digits. -/
def takeDigits (cs : List Char) : List Char × List Char :=
  (cs.takeWhile Char.isDigit, cs.dropWhile Char.isDigit)

/-- Parse a JSON number lexeme (RFC 8259 grammar, as `JSON.parse` accepts):
optional minus, integer part with no leading zero, optional fraction,
optional exponent. Returns the lexeme and the rest. -/
def parseNumberLexeme (cs : List Char) : Option (List Char × List Char) :=
  let (sign, cs1) :=
    match cs with
    | c :: r => if c = '-' then ([c], r) else (([] : List Char), cs)
    | [] => ([], cs)
  match cs1 with
  | [] => none
  | d :: rest =>
    let intPart? : Option (List Char × List Char) :=
      if d = '0' then some ([d], rest)
      else if d.isDigit then
        let (ds, after) := takeDigits rest
        some (d :: ds, after)
      else none
    match intPart? with
    | none => none
    | some (intDigits, afterInt) =>
      let fracRes : Option (List Char × List Char) :=
        match afterInt with
        | p :: r2 =>
          if p = '.' then
            let (fds, afterFrac) := takeDigits r2
            if fds = [] then none else some (p :: fds, afterFrac)
          else some ([], afterInt)
        | [] => some ([], afterInt)
      match fracRes with
      | none => none
      | some (fracDigits, afterFrac) =>
        let expRes : Option (List Char × List Char) :=
          match afterFrac with
          | e :: r3 =>
            if e = 'e' ∨ e = 'E' then
              let (esign, r4) :=
                match r3 with
                | s :: r5 => if s = '+' ∨ s = '-' then ([s], r5) else (([] : List Char), r3)
                | [] => ([], r3)
              let (eds, afterExp) := takeDigits r4
              if eds = [] then none else some (e :: esign ++ eds, afterExp)
            else some ([], afterFrac)
          | [] => some ([], afterFrac)
        match expRes with
        | none => none
        | some (expDigits, afterExp) =>
          some (sign ++ intDigits ++ fracDigits ++ expDigits, afterExp)

/-- Does the list start with the given prefix of characters? If so return
the remainder. -/
def stripHead : List Char → List Char → Option (List Char)
  | [], cs => some cs
  | p :: ps, c :: cs => if c = p then stripHead ps cs else none
  | _ :: _, [] => none

mutual

/-- Parse one JSON value (fuel-indexed; `jsonParse` supplies enough fuel).
Mirrors the grammar `JSON.parse` accepts. -/
def parseVal : Nat → List Char → Option (Json × List Char)
  | 0, _ => none
  | fuel + 1, cs =>
    match skipJsonWs cs with
    | [] => none
    | c :: rest =>
      if c = '"' then
        match parseStringBody [] rest with
        | some (s, r) => some (.str s, r)
        | none => none
      else if c = lbraceChar then
        match parseObjBody fuel rest true with
        | some (fields, r) => some (.obj fields, r)
        | none => none
      else if c = '[' then
        match parseArrBody fuel rest true with
        | some (elems, r) => some (.arr elems, r)
        | none => none
      else if c = '-' ∨ c.isDigit then
        match parseNumberLexeme (c :: rest) with
        | some (lex, r) => some (.num (String.mk lex), r)
        | none => none
      else
        match stripHead ['t', 'r', 'u', 'e'] (c :: rest) with
        | some r => some (.bool true, r)
        | none =>
          match stripHead ['f', 'a', 'l', 's', 'e'] (c :: rest) with
          | some r => some (.bool false, r)
          | none =>
            match stripHead ['n', 'u', 'l', 'l'] (c :: rest) with
            | some r => some (.null, r)
            | none => none

/-- Parse the members of a JSON object after the opening brace.
`first` is true when no member has been consumed yet (only then may the
closing brace follow immediately; a trailing comma is rejected). -/
def parseObjBody : Nat → List Char → Bool → Option (List (String × Json) × List Char)
  | 0, _, _ => none
  | fuel + 1, cs, first =>
    match skipJsonWs cs with
    | [] => none
    | c :: rest =>
      if c = rbraceChar ∧ first then some ([], rest)
      else if c = '"' then
        match parseStringBody [] rest with
        | none => none
        | some (k, r1) =>
          match skipJsonWs r1 with
          | [] => none
          | c2 :: r2 =>
            if c2 = ':' then
              match parseVal fuel r2 with
              | none => none
              | some (v, r3) =>
                match skipJsonWs r3 with
                | [] => none
                | c3 :: r4 =>
                  if c3 = ',' then
                    match parseObjBody fuel r4 false with
                    | some (fields, r5) => some ((k, v) :: fields, r5)
                    | none => none
                  else if c3 = rbraceChar then some ([(k, v)], r4)
                  else none
            else none
      else none

/-- Parse the elements of a JSON array after the opening bracket. -/
def parseArrBody : Nat → List Char → Bool → Option (List Json × List Char)
  | 0, _, _ => none
  | fuel + 1, cs, first =>
    match skipJsonWs cs with
    | [] => none
    | c :: rest =>
      if c = ']' ∧ first then some ([], rest)
      else
        match parseVal fuel (c :: rest) with
        | none => none
        | some (v, r1) =>
          match skipJsonWs r1 with
          | [] => none
          | c2 :: r2 =>
            if c2 = ',' then
              match parseArrBody fuel r2 false with
              | some (vs, r3) => some (v :: vs, r3)
              | none => none
            else if c2 = ']' then some ([v], r2)
            else none

end

/-- Embedding of `JSON.parse`: `some` the parsed value, or `none` where
`JSON.parse` would throw a `SyntaxError` (such as on the empty string). -/
def jsonParse (s : String) : Option Json :=
  let cs := s.toList
  match parseVal (cs.length + 1) cs with
  | some (v, rest) => if skipJsonWs rest = [] then some v else none
  | none => none

/-! ## Regex embeddings (source lines 93-96)

The source selects the text to parse with

  contentBlock.match(/```json\s*([\s\S]*?)\s*```/i) ||
  contentBlock.match(/({[\s\S]*})/)

and takes capture group 1 of whichever matched first, or the empty string.
-/

/-- Index of the first occurrence of a character, if any. -/
def idxOfChar (c : Char) : List Char → Option Nat
  | [] => none
  | x :: xs => if x = c then some 0 else (idxOfChar c xs).map (· + 1)

/-- Index of the last occurrence of a character, if any. -/
def lastIdxOfChar (c : Char) (cs : List Char) : Option Nat :=
  (idxOfChar c cs.reverse).map (fun k => cs.length - 1 - k)

/-- Embedding of `contentBlock.match(/({[\s\S]*})/)`, returning capture
group 1 (here the whole match). JavaScript semantics: the match starts at
the leftmost position where the pattern can succeed, which is the first
brace-open character followed by a later brace-close; the greedy `[\s\S]*`
then extends the match to the last brace-close in the string. So the
capture runs from the first opening brace to the last closing brace, and
there is no match when no closing brace follows the first opening brace. -/
def braceCapture (s : String) : Option String :=
  let cs := s.toList
  match idxOfChar lbraceChar cs, lastIdxOfChar rbraceChar cs with
  | some i, some j => if i < j then some (String.mk ((cs.drop i).take (j + 1 - i))) else none
  | _, _ => none

/-- Do the first seven characters spell the fence opener (three backticks
then `json`, the letters case-insensitive under the regex `i` flag)? -/
def isFenceOpen : List Char → Bool
  | a :: b :: c :: d :: e :: f :: g :: _ =>
    a = backtickChar && b = backtickChar && c = backtickChar &&
    d.toLower = 'j' && e.toLower = 's' && f.toLower = 'o' && g.toLower = 'n'
  | _ => false

/-- Split a character list at the first occurrence of three consecutive
backticks: `some (before, after)` with the three backticks removed. -/
def splitAtTripleBacktick : List Char → Option (List Char × List Char)
  | a :: b :: c :: rest =>
    if a = backtickChar ∧ b = backtickChar ∧ c = backtickChar then
      some ([], rest)
    else
      match splitAtTripleBacktick (b :: c :: rest) with
      | some (pre, post) => some (a :: pre, post)
      | none => none
  | _ => none

/-- Scan for the fenced-block match starting at each position, leftmost
first (see `fencedJsonCapture`). -/
def fencedScan : List Char → Option String
  | [] => none
  | c :: rest =>
    if isFenceOpen (c :: rest) then
      match splitAtTripleBacktick ((c :: rest).drop 7) with
      | some (pre, _) => some (String.mk (trimRegexWs pre))
      | none => fencedScan rest
    else fencedScan rest

/-- Embedding of `contentBlock.match(/```json\s*([\s\S]*?)\s*```/i)`,
returning capture group 1. JavaScript semantics: the match starts at the
leftmost fence opener that is followed, somewhere later, by three closing
backticks. After the opener, the greedy leading `\s*` first consumes all
whitespace; the lazy `([\s\S]*?)` then grows one character at a time, and
for each candidate the greedy trailing `\s*` backtracks down to find three
backticks. The first success captures exactly the text between the fence
opener and the first subsequent triple backtick, trimmed of surrounding
`\s` whitespace — which is what `fencedScan` computes. -/
def fencedJsonCapture (s : String) : Option String :=
  fencedScan s.toList

/-- Embedding of source lines 93-96: try the fenced-block regex first,
fall back to the brace regex, and yield the empty string when neither
matches (`jsonMatch ? jsonMatch[1] : ""`). -/
def extractContent (s : String) : String :=
  match fencedJsonCapture s with
  | some c => c
  | none =>
    match braceCapture s with
    | some c => c
    | none => ""

/-! ## Data model and environment -/

/-- The enrichment record (`PerplexityInsights`). The field list is the one
the flow produces and the spec's data model declares; the type declaration
itself lives in `types/perplexity`, outside the sample, so the shape is
modelled from the spec: four primary fields (`some Json.null` is the
explicit JSON `null` absence marker, `none` means the key was not present
in the parsed object) plus the citation and image lists from the response
envelope. -/
structure PerplexityInsights where
  name : Option Json
  description : Option Json
  features : Option Json
  parking : Option Json
  sources : List String
  images : List String
deriving Repr

/-- Last-wins lookup in an object's field list (`JSON.parse` keeps the
last of duplicate keys, and property access sees that value). -/
def lookupLastField : List (String × Json) → String → Option Json
  | [], _ => none
  | (k, v) :: rest, key =>
    match lookupLastField rest key with
    | some r => some r
    | none => if k = key then some v else none

/-- Property access `parsed.key` on a parsed JSON value: a field of an
object, nothing on any other value (spreading a non-object contributes no
such property). -/
def jsonGet (j : Json) (key : String) : Option Json :=
  match j with
  | .obj fields => lookupLastField fields key
  | _ => none

/-- Source lines 98-102: `{...JSON.parse(content), sources: data.citations,
images: data.images}` projected onto the declared record shape. -/
def mkInsights (parsed : Json) (citations images : List String) : PerplexityInsights :=
  { name := jsonGet parsed "name"
    description := jsonGet parsed "description"
    features := jsonGet parsed "features"
    parking := jsonGet parsed "parking"
    sources := citations
    images := images }

/-- An `AbortSignal`, observed at the two points the source reads it: at
entry (lines 17 and 115) and after the fetch returns (line 132). -/
structure AbortSig where
  abortedAtEntry : Bool
  abortedAfterFetch : Bool
deriving Repr, DecidableEq

/-- `signal?.aborted` at entry: `false` when no signal was passed
(optional chaining yields `undefined`, which is falsy). -/
def sigAborted : Option AbortSig → Bool
  | some sg => sg.abortedAtEntry
  | none => false

/-- `signal?.aborted` at the post-fetch check on line 132. -/
def sigAbortedAfterFetch : Option AbortSig → Bool
  | some sg => sg.abortedAfterFetch
  | none => false

/-- The HTTP response the outbound `fetch` to the Perplexity API would
produce: `ok` and `statusText` of the transport, and the envelope fields
the code reads from the decoded JSON body
(`choices[0].message.content`, `citations`, `images`). -/
structure ApiResponse where
  ok : Bool
  statusText : String
  content : String
  citations : List String
  images : List String
deriving Repr

/-- The ambient state both functions read: the
`process.env.PERPLEXITY_API_KEY` variable (`none` = absent), the response
the network would return, and the cache contents as an association list
from address to stored record. -/
structure Env where
  apiKey : Option String
  response : ApiResponse
  cache : List (String × PerplexityInsights)
deriving Repr

/-- `fetchPerplexityInsightsFromCache({address})`: first matching entry. -/
def lookupCache (cache : List (String × PerplexityInsights)) (address : String) :
    Option PerplexityInsights :=
  match cache with
  | [] => none
  | (k, v) :: rest => if k = address then some v else lookupCache rest address

/-- The errors `fetchPerplexityInsights` can throw. -/
inductive FetchError where
  | missingApiKey : FetchError
  | apiError (statusText : String) : FetchError
  | jsonSyntaxError (text : String) : FetchError
deriving Repr, DecidableEq

/-- The message of each thrown error, as built by the source
(line 23 and line 87; the `SyntaxError` message of `JSON.parse` is
engine-defined, represented generically). -/
def errorMessage : FetchError → String
  | .missingApiKey => "Perplexity API key is missing"
  | .apiError st => "Perplexity AI API error: " ++ st
  | .jsonSyntaxError _ => "Unexpected token in JSON"

/-- `s` contains `t` as a substring. -/
def strContains (s t : String) : Prop := ∃ a b : String, a ++ t ++ b = s

/-- Side effects performed by one invocation: number of outbound network
calls, number of cache lookups, and the ordered list of cache writes. -/
structure Effects where
  networkCalls : Nat
  cacheReads : Nat
  cacheWrites : List (String × PerplexityInsights)
deriving Repr

/-- No side effects at all. -/
def noEffects : Effects := ⟨0, 0, []⟩

/-- Add the wrapper's own cache lookup to the effects of the inner fetch. -/
def withCacheRead (e : Effects) : Effects :=
  { e with cacheReads := e.cacheReads + 1 }

/-! ## The Enrichment Fetcher (source lines 8-103) -/

/-- Embedding of `fetchPerplexityInsights`. Steps, in source order:
the `signal?.aborted` fast exit (lines 17-19); the credential check
(lines 21-24, `!apiKey` is also true for the empty string); the single
outbound request (lines 76-84), answered by `env.response`; the HTTP
status check (lines 86-88); content extraction (lines 92-96);
`JSON.parse` and record construction (lines 98-102). Prompt and request
body construction (lines 26-74) only shape the outbound request, which the
environment answers, so they do not appear. Returns the result —
`.error` for a throw, `.ok none` for the `null` fast exit — paired with
the effects performed. -/
def fetchPerplexityInsights (address : String) (name : Option String)
    (signal : Option AbortSig) (env : Env) :
    Except FetchError (Option PerplexityInsights) × Effects :=
  if sigAborted signal then (.ok none, noEffects)
  else
    match env.apiKey with
    | none => (.error .missingApiKey, noEffects)
    | some key =>
      if key = "" then (.error .missingApiKey, noEffects)
      else if !env.response.ok then
        (.error (.apiError env.response.statusText), ⟨1, 0, []⟩)
      else
        match jsonParse (extractContent env.response.content) with
        | none =>
          (.error (.jsonSyntaxError (extractContent env.response.content)), ⟨1, 0, []⟩)
        | some parsed =>
          (.ok (some (mkInsights parsed env.response.citations env.response.images)),
            ⟨1, 0, []⟩)

/-! ## The Cache-Aware Wrapper (source lines 106-139) -/

/-- Embedding of `fetchPerplexityInsightsWithCache`. Steps, in source
order: the `signal?.aborted` fast exit (lines 115-117); the cache lookup
(lines 119-124), returning a hit as-is; the inner fetch (lines 126-130);
the post-fetch `signal?.aborted || !freshInsights` check (lines 132-134);
the cache write and return of the fresh record (lines 136-138). A thrown
error from the inner fetch propagates unchanged. -/
def fetchPerplexityInsightsWithCache (address : String) (name : Option String)
    (signal : Option AbortSig) (env : Env) :
    Except FetchError (Option PerplexityInsights) × Effects :=
  if sigAborted signal then (.ok none, noEffects)
  else
    match lookupCache env.cache address with
    | some cached => (.ok (some cached), ⟨0, 1, []⟩)
    | none =>
      match fetchPerplexityInsights address name signal env with
      | (.error e, fe) => (.error e, withCacheRead fe)
      | (.ok none, fe) => (.ok none, withCacheRead fe)
      | (.ok (some fresh), fe) =>
        if sigAbortedAfterFetch signal then (.ok none, withCacheRead fe)
        else
          (.ok (some fresh),
            { withCacheRead fe with cacheWrites := fe.cacheWrites ++ [(address, fresh)] })

/-! ## Concrete sample data (used by the closed instances below) -/

/-- A sample stored enrichment record. -/
def sampleInsights : PerplexityInsights :=
  { name := some (.str "Sunset Park Playground")
    description := some (.str "...")
    features := some (.arr [.str "slide", .str "swing"])
    parking := some (.str "Street parking")
    sources := ["https://example.org/park"]
    images := ["https://example.org/img1"] }

/-- The API's explicit not-found object, every primary field `null`. -/
def notFoundObjText : String :=
  "\x7b\"name\":null,\"description\":null,\"features\":null,\"parking\":null\x7d"

/-- The record the fetcher builds from `notFoundObjText` with an empty
envelope. -/
def notFoundInsights : PerplexityInsights :=
  { name := some .null, description := some .null, features := some .null,
    parking := some .null, sources := [], images := [] }

/-- A response environment whose content is the not-found object, bare. -/
def baseEnv : Env :=
  { apiKey := some "test-key"
    response := { ok := true, statusText := "OK", content := notFoundObjText,
                  citations := [], images := [] }
    cache := [] }

/-! ## Helper lemmas -/

/-- The fetcher touches the network at most once and never touches the
cache (its only effects constructors are `noEffects` and one network
call). -/
theorem fetchInsights_cache_silent (address : String) (name : Option String)
    (signal : Option AbortSig) (env : Env) :
    (fetchPerplexityInsights address name signal env).2.cacheReads = 0 ∧
    (fetchPerplexityInsights address name signal env).2.cacheWrites = [] := by
  unfold fetchPerplexityInsights
  split
  · exact ⟨rfl, rfl⟩
  · split
    · exact ⟨rfl, rfl⟩
    · split
      · exact ⟨rfl, rfl⟩
      · split
        · exact ⟨rfl, rfl⟩
        · split <;> exact ⟨rfl, rfl⟩

/-! ## Claims -/

/-- Claim C1: for every input whose cancellation signal is already
triggered at entry, both `fetchPerplexityInsights` and
`fetchPerplexityInsightsWithCache` return no result (`null`) and perform
no network call and no cache read or write. -/
theorem claim1_pretriggered_signal_no_result_no_io
    (address : String) (name : Option String) (sg : AbortSig) (env : Env)
    (h : sg.abortedAtEntry = true) :
    fetchPerplexityInsights address name (some sg) env = (.ok none, noEffects) ∧
    fetchPerplexityInsightsWithCache address name (some sg) env = (.ok none, noEffects) := by
  constructor
  · unfold fetchPerplexityInsights
    simp [sigAborted, h]
  · unfold fetchPerplexityInsightsWithCache
    simp [sigAborted, h]

/-- Closed instance of C1 at a concrete pre-aborted signal. -/
theorem claim1_witness :
    fetchPerplexityInsights "450 W 25th St" none (some ⟨true, true⟩) baseEnv =
      (.ok none, noEffects) ∧
    fetchPerplexityInsightsWithCache "450 W 25th St" none (some ⟨true, true⟩) baseEnv =
      (.ok none, noEffects) :=
  claim1_pretriggered_signal_no_result_no_io "450 W 25th St" none ⟨true, true⟩ baseEnv rfl

/-- Claim C10: the fetcher's cancellation check precedes its credential
check: with a pre-triggered signal it returns `null` even when the API
key is absent, raising no configuration error. -/
theorem claim10_abort_check_precedes_credential_check
    (address : String) (name : Option String) (sg : AbortSig) (env : Env)
    (h : sg.abortedAtEntry = true) (hkey : env.apiKey = none) :
    fetchPerplexityInsights address name (some sg) env = (.ok none, noEffects) := by
  unfold fetchPerplexityInsights
  simp [sigAborted, h]

/-- Closed instance of C10: aborted signal and missing key. -/
theorem claim10_witness :
    ({ baseEnv with apiKey := none } : Env).apiKey = none ∧
    fetchPerplexityInsights "450 W 25th St" none (some ⟨true, true⟩)
      { baseEnv with apiKey := none } = (.ok none, noEffects) :=
  ⟨rfl, claim10_abort_check_precedes_credential_check "450 W 25th St" none ⟨true, true⟩
    { baseEnv with apiKey := none } rfl rfl⟩

/-- Claim C5: with a non-aborted signal and no API credential in the
environment, the fetcher fails with the configuration error before any
network call (the effect trace shows zero network calls). -/
theorem claim5_missing_credential_fails_before_network
    (address : String) (name : Option String) (signal : Option AbortSig) (env : Env)
    (hab : sigAborted signal = false) (hkey : env.apiKey = none) :
    fetchPerplexityInsights address name signal env = (.error .missingApiKey, noEffects) := by
  unfold fetchPerplexityInsights
  simp [hab, hkey]

/-- Closed instance of C5: no signal, no key. -/
theorem claim5_witness :
    fetchPerplexityInsights "450 W 25th St" none none { baseEnv with apiKey := none } =
      (.error .missingApiKey, noEffects) :=
  claim5_missing_credential_fails_before_network "450 W 25th St" none none
    { baseEnv with apiKey := none } rfl rfl

/-- Claim C2: on a cache hit the wrapper returns the cached record
verbatim — the exact stored value, no merge with the `name` argument —
with one cache read, zero network calls and zero cache writes. -/
theorem claim2_cache_hit_returns_verbatim_no_network
    (address : String) (name : Option String) (signal : Option AbortSig) (env : Env)
    (c : PerplexityInsights)
    (hab : sigAborted signal = false)
    (hhit : lookupCache env.cache address = some c) :
    fetchPerplexityInsightsWithCache address name signal env = (.ok (some c), ⟨0, 1, []⟩) := by
  unfold fetchPerplexityInsightsWithCache
  simp [hab, hhit]

/-- Closed instance of C2: a cache holding `sampleInsights` under the
queried address, and a different `name` argument. -/
theorem claim2_witness :
    lookupCache [("450 W 25th St", sampleInsights)] "450 W 25th St" = some sampleInsights ∧
    fetchPerplexityInsightsWithCache "450 W 25th St" (some "Chelsea Waterside")
      none { baseEnv with cache := [("450 W 25th St", sampleInsights)] } =
      (.ok (some sampleInsights), ⟨0, 1, []⟩) :=
  ⟨rfl, claim2_cache_hit_returns_verbatim_no_network "450 W 25th St"
    (some "Chelsea Waterside") none
    { baseEnv with cache := [("450 W 25th St", sampleInsights)] } sampleInsights rfl rfl⟩

/-- Claim C3: cache miss, successful fetch with a record, no abort
observed afterwards — the wrapper's trace contains exactly one cache
write, of the fetched record keyed by the address, and the returned value
is that same record. -/
theorem claim3_miss_fetch_success_writes_then_returns
    (address : String) (name : Option String) (signal : Option AbortSig) (env : Env)
    (r : PerplexityInsights) (fe : Effects)
    (hab : sigAborted signal = false)
    (hmiss : lookupCache env.cache address = none)
    (hfetch : fetchPerplexityInsights address name signal env = (.ok (some r), fe))
    (hafter : sigAbortedAfterFetch signal = false) :
    fetchPerplexityInsightsWithCache address name signal env =
      (.ok (some r), ⟨fe.networkCalls, fe.cacheReads + 1, [(address, r)]⟩) := by
  have hw := (fetchInsights_cache_silent address name signal env).2
  rw [hfetch] at hw
  simp only at hw
  unfold fetchPerplexityInsightsWithCache
  simp [hab, hmiss, hfetch, hafter, withCacheRead, hw]

/-- Closed instance of C3: empty cache, fetch answers the not-found
object, no signal at all. -/
theorem claim3_witness :
    fetchPerplexityInsights "450 W 25th St" none none baseEnv =
      (.ok (some notFoundInsights), ⟨1, 0, []⟩) ∧
    fetchPerplexityInsightsWithCache "450 W 25th St" none none baseEnv =
      (.ok (some notFoundInsights), ⟨1, 1, [("450 W 25th St", notFoundInsights)]⟩) :=
  ⟨rfl, claim3_miss_fetch_success_writes_then_returns "450 W 25th St" none none baseEnv
    notFoundInsights ⟨1, 0, []⟩ rfl rfl rfl rfl⟩

/-- Claim C9: on a cache miss, when after the fetch completes either
cancellation has been requested or the fetch produced no record, the
wrapper returns `null` and its trace contains no cache write. -/
theorem claim9_post_fetch_abort_or_no_record_returns_null_no_write
    (address : String) (name : Option String) (signal : Option AbortSig) (env : Env)
    (fr : Option PerplexityInsights) (fe : Effects)
    (hab : sigAborted signal = false)
    (hmiss : lookupCache env.cache address = none)
    (hfetch : fetchPerplexityInsights address name signal env = (.ok fr, fe))
    (hcond : sigAbortedAfterFetch signal = true ∨ fr = none) :
    (fetchPerplexityInsightsWithCache address name signal env).1 = .ok none ∧
    (fetchPerplexityInsightsWithCache address name signal env).2.cacheWrites = [] := by
  have hw := (fetchInsights_cache_silent address name signal env).2
  rw [hfetch] at hw
  simp only at hw
  unfold fetchPerplexityInsightsWithCache
  cases fr with
  | none => simp [hab, hmiss, hfetch, withCacheRead, hw]
  | some r =>
    have hafter : sigAbortedAfterFetch signal = true := by
      cases hcond with
      | inl h => exact h
      | inr h => exact absurd h (by simp)
    simp [hab, hmiss, hfetch, hafter, withCacheRead, hw]

/-- Closed instance of C9: signal aborted between the entry check and the
post-fetch check. -/
theorem claim9_witness :
    fetchPerplexityInsights "450 W 25th St" none (some ⟨false, true⟩) baseEnv =
      (.ok (some notFoundInsights), ⟨1, 0, []⟩) ∧
    (fetchPerplexityInsightsWithCache "450 W 25th St" none (some ⟨false, true⟩) baseEnv).1 =
      .ok none ∧
    (fetchPerplexityInsightsWithCache "450 W 25th St" none (some ⟨false, true⟩)
        baseEnv).2.cacheWrites = [] :=
  ⟨rfl,
    claim9_post_fetch_abort_or_no_record_returns_null_no_write "450 W 25th St" none
      (some ⟨false, true⟩) baseEnv (some notFoundInsights) ⟨1, 0, []⟩ rfl rfl rfl (.inl rfl)⟩

/-- Claim C4: a non-success HTTP status makes the fetcher throw the
upstream error, whose message contains the response's status text; on a
cache miss the wrapper propagates the same error with no cache write in
its trace. -/
theorem claim4_http_error_contains_status_text_propagates_no_write
    (address : String) (name : Option String) (signal : Option AbortSig) (env : Env)
    (k : String)
    (hab : sigAborted signal = false)
    (hkey : env.apiKey = some k) (hk : ¬ k = "")
    (hok : env.response.ok = false)
    (hmiss : lookupCache env.cache address = none) :
    fetchPerplexityInsights address name signal env =
      (.error (.apiError env.response.statusText), ⟨1, 0, []⟩) ∧
    strContains (errorMessage (.apiError env.response.statusText))
      env.response.statusText ∧
    fetchPerplexityInsightsWithCache address name signal env =
      (.error (.apiError env.response.statusText), ⟨1, 1, []⟩) := by
  have hfetch : fetchPerplexityInsights address name signal env =
      (.error (.apiError env.response.statusText), ⟨1, 0, []⟩) := by
    unfold fetchPerplexityInsights
    simp [hab, hkey, hk, hok]
  refine ⟨hfetch, ⟨"Perplexity AI API error: ", "", ?_⟩, ?_⟩
  · simp [errorMessage]
  · unfold fetchPerplexityInsightsWithCache
    simp [hab, hmiss, hfetch, withCacheRead]

/-- An environment whose network answer is a 502 with status text
`Bad Gateway`. -/
def badGatewayEnv : Env :=
  { apiKey := some "test-key"
    response := { ok := false, statusText := "Bad Gateway", content := notFoundObjText,
                  citations := [], images := [] }
    cache := [] }

/-- Closed instance of C4: the 502 response of `badGatewayEnv`. -/
theorem claim4_witness :
    fetchPerplexityInsights "450 W 25th St" none none badGatewayEnv =
      (.error (.apiError "Bad Gateway"), ⟨1, 0, []⟩) ∧
    strContains (errorMessage (.apiError "Bad Gateway")) "Bad Gateway" ∧
    fetchPerplexityInsightsWithCache "450 W 25th St" none none badGatewayEnv =
      (.error (.apiError "Bad Gateway"), ⟨1, 1, []⟩) :=
  claim4_http_error_contains_status_text_propagates_no_write "450 W 25th St" none none
    badGatewayEnv "test-key" rfl rfl (by simp) rfl rfl

/-- Claim C8: when the HTTP response is successful but the extracted text
is not valid JSON — in particular when neither regex matches and the
extraction yields the empty string — the fetcher throws the parse error
and returns no record. -/
theorem claim8_invalid_json_raises_parse_error
    (address : String) (name : Option String) (signal : Option AbortSig) (env : Env)
    (k : String)
    (hab : sigAborted signal = false)
    (hkey : env.apiKey = some k) (hk : ¬ k = "")
    (hok : env.response.ok = true)
    (hparse : jsonParse (extractContent env.response.content) = none) :
    fetchPerplexityInsights address name signal env =
      (.error (.jsonSyntaxError (extractContent env.response.content)), ⟨1, 0, []⟩) := by
  unfold fetchPerplexityInsights
  simp [hab, hkey, hk, hok, hparse]

/-- An environment whose content has no fenced block and no braces at
all, so the extraction yields the empty string. -/
def noJsonEnv : Env :=
  { apiKey := some "test-key"
    response := { ok := true, statusText := "OK",
                  content := "Sorry, I could not find a playground there.",
                  citations := [], images := [] }
    cache := [] }

/-- Closed instance of C8: prose content, extraction gives the empty
string, `JSON.parse` fails. -/
theorem claim8_witness :
    extractContent noJsonEnv.response.content = "" ∧
    jsonParse (extractContent noJsonEnv.response.content) = none ∧
    fetchPerplexityInsights "450 W 25th St" none none noJsonEnv =
      (.error (.jsonSyntaxError (extractContent noJsonEnv.response.content)), ⟨1, 0, []⟩) :=
  ⟨rfl, rfl, claim8_invalid_json_raises_parse_error "450 W 25th St" none none noJsonEnv
    "test-key" rfl rfl (by simp) rfl rfl⟩

/-- The bare content of C6: a brace-delimited not-found object preceded by
prose, with no fenced block. -/
def bareText : String :=
  "Here you go: \x7b\"name\":null,\"description\":null,\"features\":null,\"parking\":null\x7d"

/-- An environment answering with `bareText` and a non-empty envelope. -/
def bareEnv : Env :=
  { apiKey := some "test-key"
    response := { ok := true, statusText := "OK", content := bareText,
                  citations := ["https://example.org/cite"],
                  images := ["https://example.org/img"] }
    cache := [] }

/-- A content string holding both a fenced `json` block and further
braces, to exhibit the order of the two extraction attempts. -/
def fencedAndBraceText : String :=
  "```json\n\x7b\"a\":1\x7d\n``` and also \x7b\"b\":2\x7d"

/-- Claim C6: the extraction tries the fenced-block regex first and only
on failure falls back to the brace regex (shown on `fencedAndBraceText`,
where both match and the fenced capture wins); for `bareText` the fenced
regex fails, the fallback captures exactly the brace-delimited object,
and the fetcher returns a record whose four primary fields are all the
explicit `null` absence marker. -/
theorem claim6_brace_fallback_extracts_not_found_object :
    fencedJsonCapture fencedAndBraceText = some "\x7b\"a\":1\x7d" ∧
    braceCapture fencedAndBraceText = some "\x7b\"a\":1\x7d\n``` and also \x7b\"b\":2\x7d" ∧
    extractContent fencedAndBraceText = "\x7b\"a\":1\x7d" ∧
    fencedJsonCapture bareText = none ∧
    braceCapture bareText = some notFoundObjText ∧
    extractContent bareText = notFoundObjText ∧
    fetchPerplexityInsights "450 W 25th St" none none bareEnv =
      (.ok (some { name := some .null, description := some .null, features := some .null,
                   parking := some .null, sources := ["https://example.org/cite"],
                   images := ["https://example.org/img"] }), ⟨1, 0, []⟩) :=
  ⟨rfl, rfl, rfl, rfl, rfl, rfl, rfl⟩

/-- The fenced content of C7: the example record wrapped in a
triple-backtick `json` fence. -/
def fencedContentText : String :=
  "```json\n\x7b\"name\":\"Sunset Park Playground\",\"description\":\"...\",\"features\":[\"slide\",\"swing\"],\"parking\":\"Street parking\"\x7d\n```"

/-- Claim C7: for a successful response whose content is the fenced
example object, the fetcher returns the four parsed field values, and the
`sources` and `images` of the result are exactly the `citations` and
`images` lists of the response envelope, whatever they are. -/
theorem claim7_fenced_object_populates_record_envelope_passthrough
    (address : String) (name : Option String) (citations images : List String) :
    fetchPerplexityInsights address name none
      { apiKey := some "test-key"
        response := { ok := true, statusText := "OK", content := fencedContentText,
                      citations := citations, images := images }
        cache := [] } =
      (.ok (some { name := some (.str "Sunset Park Playground")
                   description := some (.str "...")
                   features := some (.arr [.str "slide", .str "swing"])
                   parking := some (.str "Street parking")
                   sources := citations, images := images }), ⟨1, 0, []⟩) := by
  rfl
